import Mathlib

/-!
A verification development for the EaselyBot core: the assignment
time-window filter, the conversation-state routing, the Canvas retry
policy and gateway, and the Supabase-backed assignment cache and
synchronization engine.  Each definition is a shallow embedding of the
corresponding Python function, with module and function names kept
where Lean allows.  Timestamps are modelled as natural numbers counting
microseconds since the Unix epoch (Python `datetime` resolution);
Asia/Manila is a fixed UTC+8 zone with no daylight saving, so the
conversion is a constant offset.
-/

namespace EaselyBot

/-! ## Python string primitives

The Lean core string functions (`String.toLower`, `String.trim`, …) are
defined by well-founded recursion and do not reduce definitionally, so
the embedding uses list-based equivalents.  All strings compared by the
source are ASCII, where Python's `str.lower()`/`str.upper()` coincide
with per-character ASCII case mapping, and `str.strip()` removes the
six Python whitespace characters from both ends. -/

/-- Python `str.lower()` (ASCII case mapping, character by character). -/
def strLower (s : String) : String := ⟨s.data.map Char.toLower⟩

/-- Python `str.upper()` (ASCII case mapping, character by character). -/
def strUpper (s : String) : String := ⟨s.data.map Char.toUpper⟩

/-- The characters Python `str.strip()` removes. -/
def pyWhitespace (c : Char) : Bool :=
  [' ', '\t', '\n', '\r', '\x0b', '\x0c'].contains c

/-- Python `str.strip()`. -/
def strStrip (s : String) : String :=
  ⟨((s.data.dropWhile pyWhitespace).reverse.dropWhile pyWhitespace).reverse⟩

/-! ## Time model

A `datetime` instant is a `Nat` of microseconds since 1970-01-01T00:00Z.
Manila civil time is obtained by adding the fixed +08:00 offset, after
which day boundaries are multiples of `usPerDay` and Python's
`weekday()` (Monday = 0 … Sunday = 6) is recovered from the day index:
1970-01-01 was a Thursday, i.e. weekday 3.
-/

def usPerSec : Nat := 1000000

def usPerDay : Nat := 86400 * usPerSec

/-- `convert_to_manila_time` from `app/core/event_handler.py`: Asia/Manila
is UTC+08:00 (fixed offset, no DST), so converting a UTC instant to a
Manila civil timestamp adds eight hours. -/
def convert_to_manila_time (utc : Nat) : Nat := utc + 8 * 3600 * usPerSec

/-- Python `datetime.weekday()` of a Manila civil timestamp:
Monday = 0 … Sunday = 6.  Day 0 (1970-01-01) was a Thursday. -/
def manilaWeekday (manila : Nat) : Nat := (manila / usPerDay + 3) % 7

/-- `now_manila.replace(hour=0, minute=0, second=0, microsecond=0)`:
local midnight of the current Manila date. -/
def todayStart (nowManila : Nat) : Nat := nowManila / usPerDay * usPerDay

/-- `now_manila.replace(hour=23, minute=59, second=59, microsecond=999999)`:
the last microsecond of the current Manila date. -/
def todayEnd (nowManila : Nat) : Nat := todayStart nowManila + usPerDay - 1

/-- `days_until_sunday = (6 - now_manila.weekday()) % 7`, followed by the
source's no-op special case for Sunday (`now_manila.hour >= 0` is always
true, so the branch reassigns 0 to 0). -/
def daysUntilSunday (nowManila : Nat) : Nat :=
  let d := (6 - manilaWeekday nowManila) % 7
  if d = 0 then 0 else d

/-- `week_end = today_start + timedelta(days=days_until_sunday, hours=23,
minutes=59, seconds=59)`: the upcoming Sunday at exactly 23:59:59.000000
Manila time (no microsecond component is added). -/
def weekEnd (nowManila : Nat) : Nat :=
  todayStart nowManila + daysUntilSunday nowManila * usPerDay + 86399 * usPerSec

/-! ## Assignments as seen by the filter

`filter_assignments_by_date` receives Python dicts.  Its behaviour
depends on the `due_date` value only through three cases: a falsy value
(absent key, `None` or the empty string), a present string that
`datetime.fromisoformat` rejects (the `except ValueError` path), and a
present string that parses to a UTC instant.  The embedding carries
that case analysis directly, with the parsed instant in microseconds. -/

inductive DueDate where
  | missing : DueDate
  | unparseable : DueDate
  | parsed : Nat → DueDate
deriving DecidableEq, Repr

/-- An assignment dict as consumed by `filter_assignments_by_date`:
`due_date` (through its parse outcome), the optional `status` string,
the `is_submitted` boolean produced by the Canvas gateway, and the
title (carried only to tell records apart). -/
structure FilterAssignment where
  title : String
  due : DueDate
  status : Option String
  is_submitted : Bool
deriving DecidableEq, Repr

/-- `assignment.get('status', '').lower() in ['completed', 'done',
'finished', 'submitted']`. -/
def hasCompletedStatus (a : FilterAssignment) : Bool :=
  ["completed", "done", "finished", "submitted"].contains (strLower (a.status.getD ""))

/-- The per-assignment keep decision of `filter_assignments_by_date`
for one of the four bucket strings, at Manila civil time `nowManila`:
skip falsy or unparseable due dates, skip completed statuses, then
compare the Manila-converted due instant against the bucket's window.
An unrecognized bucket string appends nothing. -/
def keepAssignment (nowManila : Nat) (filterType : String) (a : FilterAssignment) : Bool :=
  match a.due with
  | .missing => false
  | .unparseable => false
  | .parsed dueUtc =>
    if hasCompletedStatus a then false
    else
      let dueManila := convert_to_manila_time dueUtc
      if filterType = "today" then
        decide (todayStart nowManila ≤ dueManila ∧ dueManila ≤ todayEnd nowManila)
      else if filterType = "week" then
        decide (todayStart nowManila ≤ dueManila ∧ dueManila ≤ weekEnd nowManila)
      else if filterType = "overdue" then
        decide (dueManila < todayStart nowManila)
      else if filterType = "all" then
        decide (todayStart nowManila ≤ dueManila)
      else false

/-- `filter_assignments_by_date(assignments, filter_type)` from
`app/core/event_handler.py`, with the call-time Manila clock
(`get_manila_now()`) made an explicit argument. -/
def filter_assignments_by_date (assignments : List FilterAssignment)
    (filterType : String) (nowManila : Nat) : List FilterAssignment :=
  assignments.filter (keepAssignment nowManila filterType)

/-! ## Conversation-state routing

`handle_message` in `app/core/event_handler.py` dispatches an inbound
free-text event down a chain of `elif`s.  Each `is_waiting_for_*` helper
consults the database session for `conversation_state` (a read failure
behaves like an absent value, folded into `Option`), and falls back to
the in-memory `user_sessions` dict when the database value does not
match.  The routing decision is a pure function of the two stored
states, the message text and the new-user check. -/

/-- The handler a free-text message is dispatched to. -/
inductive Route where
  | tokenInput : Route
  | taskTitleInput : Route
  | customDateInput : Route
  | customTimeInput : Route
  | greetingOrMenu : Route
  | premiumActivation : Route
  | unrecognized : Route
deriving DecidableEq, Repr

/-- The shared body of `is_waiting_for_token` / `_task_title` /
`_custom_date` / `_custom_time`: true when the database session equals
the tag, else when the memory session equals the tag. -/
def isWaitingFor (dbState memState : Option String) (tag : String) : Bool :=
  dbState = some tag || memState = some tag

/-- The dispatch chain of `handle_message` (lines 61–107): the four
sub-dialog checks first, then greeting keywords or the new-user check,
then the `ACTIVATE` keyword, then the fallback reply. -/
def handle_message_route (dbState memState : Option String)
    (text : String) (isNewUser : Bool) : Route :=
  let textLower := strStrip (strLower text)
  if isWaitingFor dbState memState "waiting_for_token" then .tokenInput
  else if isWaitingFor dbState memState "waiting_for_task_title" then .taskTitleInput
  else if isWaitingFor dbState memState "waiting_for_custom_date" then .customDateInput
  else if isWaitingFor dbState memState "waiting_for_custom_time" then .customTimeInput
  else if ["hi", "hello", "hey", "menu", "help", "start"].contains textLower
          || isNewUser then .greetingOrMenu
  else if strUpper text = "ACTIVATE" then .premiumActivation
  else .unrecognized

/-- The four sub-dialog state tags, in the order `handle_message`
tests them. -/
def subDialogStates : List String :=
  ["waiting_for_token", "waiting_for_task_title",
   "waiting_for_custom_date", "waiting_for_custom_time"]

/-- The sub-dialog handler owning each state tag. -/
def subDialogRoute (tag : String) : Route :=
  if tag = "waiting_for_token" then .tokenInput
  else if tag = "waiting_for_task_title" then .taskTitleInput
  else if tag = "waiting_for_custom_date" then .customDateInput
  else if tag = "waiting_for_custom_time" then .customTimeInput
  else .unrecognized

/-! ## Task-title sub-dialog

The per-user session is modelled by the keys the task-creation dialog
touches: the `conversation_state` slot (the only key `clear_user_state`
removes) and the in-memory `user_sessions` draft fields `task_title`
and `task_date`. -/

structure Session where
  state : Option String
  task_title : Option String
  task_date : Option String
deriving DecidableEq, Repr

/-- `clear_user_state` (lines 1411–1425): removes the
`conversation_state` session key (database and memory); the draft keys
of `user_sessions` are untouched. -/
def clear_user_state (s : Session) : Session :=
  { s with state := none }

/-- The free-text keywords that abort a sub-dialog. -/
def cancelKeywords : List String := ["cancel", "back", "menu", "stop"]

/-- The observable outcome of `handle_task_title_input`. -/
inductive TitleOutcome where
  | cancelled : TitleOutcome
  | repromptTooShort : TitleOutcome
  | repromptNotATitle : TitleOutcome
  | storedAndAskedDate : TitleOutcome
deriving DecidableEq, Repr

/-- `handle_task_title_input(sender_id, title)` (lines 1035–1073):
strip, test the cancel keywords, validate length, reject the non-title
blacklist, else store the title in `user_sessions`, clear the state and
send the date picker. -/
def handle_task_title_input (s : Session) (title : String) :
    Session × TitleOutcome :=
  let t := strStrip title
  if cancelKeywords.contains (strLower t) then
    (clear_user_state s, .cancelled)
  else if t.length < 2 then
    (s, .repromptTooShort)
  else if ["l", "ok", "yes", "no", "hello", "hi"].contains (strLower t) then
    (s, .repromptNotATitle)
  else
    (clear_user_state { s with task_title := some t }, .storedAndAskedDate)

/-! ## Retry policy (`app/utils/retry_helper.py`)

`exponential_backoff_retry` wraps an operation and runs it up to
`retries + 1` times; every retry is preceded by a `time.sleep` (the
delayed retry).  The wrapped operation is modelled as a function from
the attempt index to an `Except` outcome, and the run returns the final
outcome paired with the number of sleeps performed.  The jittered delay
durations are wall-clock effects with no influence on the outcome or
the retry count, so they are not carried. -/

/-- `is_retryable_http_error(status_code)`: membership in the fixed
retryable set. -/
def is_retryable_http_error (statusCode : Nat) : Bool :=
  [408, 429, 500, 502, 503, 504].contains statusCode

/-- The `for attempt in range(retries + 1)` loop of the
`exponential_backoff_retry` wrapper: on success return the result; on a
caught exception re-raise it if `attempt >= retries`, otherwise sleep
and continue with the next attempt. -/
def retryLoop (op : Nat → Except String α) (retries attempt sleeps : Nat) :
    Except String α × Nat :=
  match op attempt with
  | .ok v => (.ok v, sleeps)
  | .error e =>
    if h : attempt ≥ retries then (.error e, sleeps)
    else retryLoop op retries (attempt + 1) (sleeps + 1)
termination_by retries - attempt
decreasing_by omega

/-- Running an operation under `exponential_backoff_retry(retries=...)`:
start at attempt 0 with no sleeps yet. -/
def exponential_backoff_retry (retries : Nat) (op : Nat → Except String α) :
    Except String α × Nat :=
  retryLoop op retries 0 0

/-! ## Canvas gateway (`app/api/canvas_api.py`)

`_make_request` (non-paginated) maps the HTTP response to: the parsed
JSON body on status 200; a raised `RequestException` on a retryable
status (which the decorator catches and retries); `None` on any other
status, logged and returned without retry. -/

/-- The outcome of one `_make_request` attempt, as a function of the
response status and body. -/
def makeRequestAttempt (status : Nat) (body : α) : Except String (Option α) :=
  if status = 200 then .ok (some body)
  else if is_retryable_http_error status then
    .error ("Retryable Canvas API error: " ++ toString status)
  else .ok none

/-- `_make_request` under its decorator (`retries=3`), for a sequence
of response statuses indexed by attempt, returning the final outcome
and the number of delayed retries. -/
def make_request (statuses : Nat → Nat) (body : α) :
    Except String (Option α) × Nat :=
  exponential_backoff_retry 3 (fun i => makeRequestAttempt (statuses i) body)

/-- The shape of `validate_token`'s result dict. -/
structure ValidationResult where
  valid : Bool
  user_info : Option String
  error_message : Option String
deriving DecidableEq, Repr

/-- `CanvasAPIClient.validate_token` (lines 119–162), as a function of
the `_make_request(token, 'users/self')` outcome: a truthy user payload
yields `valid=True`; a `None` return yields `valid=False` with the
fixed message; any exception is caught and yields `valid=False` with
the exception text.  The function is total: no exception escapes. -/
def validate_token (requestOutcome : Except String (Option String)) :
    ValidationResult :=
  match requestOutcome with
  | .ok (some userData) =>
    { valid := true, user_info := some userData, error_message := none }
  | .ok none =>
    { valid := false, user_info := none,
      error_message := some "Invalid token or Canvas server error" }
  | .error e =>
    { valid := false, user_info := none,
      error_message := some ("Validation error: " ++ e) }

/-- `validate_token` of a token whose `users/self` call keeps answering
one fixed HTTP status: the request pipeline (retry wrapper included)
followed by the result classification. -/
def validateTokenAtStatus (status : Nat) (userData : String) : ValidationResult :=
  validate_token (make_request (fun _ => status) userData).1

/-! ## Token-input sub-dialog (`handle_token_input`, lines 510–660)

Only the conversation-state effect is modelled: the message sends and
the assignment sync are outward effects.  The branches in source order:
cancel keywords clear the state; a short token re-prompts and returns;
the obvious-non-token check re-prompts and returns; an invalid
validation result re-prompts and returns (the state is deliberately
kept so the user can retry); a valid result ends with
`clear_user_state` followed by `set_user_state("token_verified", ...)`. -/

def handle_token_input_state (state : Option String) (token : String)
    (validation : ValidationResult) : Option String :=
  let t := strStrip token
  if cancelKeywords.contains (strLower t) then none
  else if t.length < 10 then state
  else if ["l", "ok", "yes", "no", "hello", "hi"].contains (strLower t)
          || t.length < 5 then state
  else if !validation.valid then state
  else some "token_verified"

/-! ## Assignment cache and synchronization engine
(`app/database/supabase_client.py`)

An assignment dict is modelled as a record of optional field values:
every key the Canvas gateway writes is present (possibly `None`), and a
key a producer does not write is `none`.  The `id` value is an int in
the gateway's output and a string after the cache round-trip, so it is
a sum.  Wall-clock bookkeeping (`created_at`, `updated_at`,
`sync_completed_at`, the user's `last_canvas_sync`) is write-only noise
for every claim here and is not carried. -/

/-- A Canvas assignment id value: an int from the Canvas API, a string
once stored in `canvas_assignment_id`. -/
inductive IdVal where
  | int : Nat → IdVal
  | str : String → IdVal
deriving DecidableEq, Repr

/-- Python truthiness of `assignment.get('id')`. -/
def idTruthy : Option IdVal → Bool
  | none => false
  | some (.int n) => n ≠ 0
  | some (.str s) => s ≠ ""

/-- Python `str(...)` of an id value. -/
def idStr : IdVal → String
  | .int n => toString n
  | .str s => s

/-- An assignment dict as exchanged between the Canvas gateway, the
cache and the presentation handlers. -/
structure AssignmentDict where
  id : Option IdVal
  title : Option String
  course_name : Option String
  course_code : Option String
  due_date : Option String
  description : Option String
  points_possible : Option Nat
  html_url : Option String
  is_submitted : Option Bool
  workflow_state : Option String
  status : Option String
deriving DecidableEq, Repr

/-- A row of the `tasks` table as written by
`cache_canvas_assignments`. -/
structure TaskRow where
  facebook_id : String
  title : Option String
  due_date : Option String
  status : String
  task_type : String
  priority : String
  canvas_assignment_id : String
  course_name : Option String
  description : Option String
  canvas_points_possible : Option Nat
  canvas_html_url : Option String
deriving DecidableEq, Repr

/-- An entry of the `canvas_sync_log` table as written by
`log_canvas_sync`. -/
structure SyncRec where
  facebook_id : String
  sync_type : String
  status : String
  assignments_fetched : Nat
  error_message : Option String
deriving DecidableEq, Repr

/-- The database as the cache and sync functions see it: the `tasks`
table and the `canvas_sync_log` table. -/
structure Db where
  tasks : List TaskRow
  canvas_sync_log : List SyncRec
deriving DecidableEq, Repr

/-- The `task_data` dict built by `cache_canvas_assignments` for one
assignment (the gateway's dicts carry every key read here, so the
`.get` defaults for `title` never fire on a present key and the stored
value is the key's value). -/
def taskRowOf (facebookId : String) (a : AssignmentDict) (anId : IdVal) : TaskRow :=
  { facebook_id := facebookId
    title := a.title
    due_date := a.due_date
    status := "pending"
    task_type := "canvas"
    priority := "medium"
    canvas_assignment_id := idStr anId
    course_name := a.course_name
    description := a.description
    canvas_points_possible := a.points_possible
    canvas_html_url := a.html_url }

/-- The row built for an assignment, or `none` when the
`if not assignment_id: continue` guard drops it. -/
def rowForAssignment (facebookId : String) (a : AssignmentDict) : Option TaskRow :=
  match a.id with
  | none => none
  | some v => if idTruthy (some v) then some (taskRowOf facebookId a v) else none

/-- Whether a `tasks` row belongs to this user's Canvas cache
(the `.eq('facebook_id', ...).eq('task_type', 'canvas')` filter). -/
def isCanvasRowOf (facebookId : String) (r : TaskRow) : Bool :=
  r.facebook_id = facebookId && r.task_type = "canvas"

/-- `cache_canvas_assignments(facebook_id, assignments)` (lines
297–345): delete the user's previous Canvas rows, then insert a row per
assignment that carries a truthy id. -/
def cache_canvas_assignments (facebookId : String)
    (assignments : List AssignmentDict) (db : Db) : Db :=
  { db with tasks :=
      db.tasks.filter (fun r => !isCanvasRowOf facebookId r)
        ++ assignments.filterMap (rowForAssignment facebookId) }

/-- The `order('due_date', desc=False)` comparison: ISO-8601 strings
compare correctly as strings; SQL nulls sort last on an ascending
scan. -/
def dueDateLe (r s : TaskRow) : Bool :=
  match r.due_date, s.due_date with
  | none, none => true
  | none, some _ => false
  | some _, none => true
  | some a, some b => a ≤ b

/-- The dict `get_cached_canvas_assignments` rebuilds from a stored
row: only these eight keys exist in it — in particular there is no
`is_submitted`, no `workflow_state` and no `status`, and the `tasks`
table has no `course_code` column so that value is `None`. -/
def assignmentOfRow (r : TaskRow) : AssignmentDict :=
  { id := some (.str r.canvas_assignment_id)
    title := r.title
    course_name := r.course_name
    course_code := none
    due_date := r.due_date
    description := r.description
    points_possible := r.canvas_points_possible
    html_url := r.canvas_html_url
    is_submitted := none
    workflow_state := none
    status := none }

/-- `get_cached_canvas_assignments(facebook_id)` (lines 347–373):
select the user's Canvas rows ordered by `due_date` ascending and
rebuild assignment dicts. -/
def get_cached_canvas_assignments (facebookId : String) (db : Db) :
    List AssignmentDict :=
  ((db.tasks.filter (isCanvasRowOf facebookId)).mergeSort dueDateLe).map
    assignmentOfRow

/-- `log_canvas_sync(facebook_id, sync_type, status,
assignments_fetched, error_message)` (lines 460–479). -/
def log_canvas_sync (facebookId syncType status : String)
    (assignmentsFetched : Nat) (errorMessage : Option String) (db : Db) : Db :=
  { db with canvas_sync_log := db.canvas_sync_log ++
      [{ facebook_id := facebookId, sync_type := syncType, status := status,
         assignments_fetched := assignmentsFetched,
         error_message := errorMessage }] }

/-- The fetch-and-reconcile tail of `sync_canvas_assignments` (from the
`fetch_user_assignments` call onward), for a given gateway outcome.
Returns the result list, the new database and the number of remote
fetches performed (here always one). -/
def syncFetchPath (facebookId : String)
    (fetchOutcome : Except String (List AssignmentDict)) (db : Db) :
    List AssignmentDict × Db × Nat :=
  match fetchOutcome with
  | .ok assignments =>
    if assignments.isEmpty then
      let db1 := log_canvas_sync facebookId "full" "failed" 0
        (some "No assignments returned from Canvas API") db
      (get_cached_canvas_assignments facebookId db1, db1, 1)
    else
      let db1 := cache_canvas_assignments facebookId assignments db
      let db2 := log_canvas_sync facebookId "full" "success"
        assignments.length none db1
      (assignments, db2, 1)
  | .error e =>
    let db1 := log_canvas_sync facebookId "full" "failed" 0 (some e) db
    (get_cached_canvas_assignments facebookId db1, db1, 1)

/-- `sync_canvas_assignments(facebook_id, token, force_refresh)` (lines
388–457), with the gateway call's outcome an explicit argument: unless
forced, a non-empty cache is returned directly with no remote call;
otherwise fetch, and on success cache and log, on an empty result or an
exception log a failed sync and fall back to the current cache. -/
def sync_canvas_assignments (facebookId : String)
    (fetchOutcome : Except String (List AssignmentDict))
    (forceRefresh : Bool) (db : Db) : List AssignmentDict × Db × Nat :=
  if !forceRefresh then
    let cached := get_cached_canvas_assignments facebookId db
    if !cached.isEmpty then (cached, db, 0)
    else syncFetchPath facebookId fetchOutcome db
  else syncFetchPath facebookId fetchOutcome db

/-! ## Concrete instances

Fixed inputs used by counterexamples and witnesses.  The clock instant
is Wednesday 2025-01-01 12:00 Manila time (day 20089 since the epoch;
`(20089 + 3) % 7 = 2` is Wednesday), whose upcoming Sunday is
2025-01-05 (day 20093). -/

/-- Wednesday 2025-01-01, 12:00:00 Manila, in Manila microseconds. -/
def nowWednesdayNoon : Nat := (20089 * 86400 + 12 * 3600) * 1000000

/-- An assignment due 14:00 Manila on 2025-01-01 whose Canvas-derived
`is_submitted` flag is `True` and whose dict has no `status` key. -/
def submittedToday : FilterAssignment :=
  { title := "Submitted essay"
    due := .parsed ((20089 * 86400 + 14 * 3600 - 8 * 3600) * 1000000)
    status := none
    is_submitted := true }

/-- The UTC instant of Sunday 2025-01-05, 23:59:59.999000 Manila. -/
def sundayLastMillisecondUtc : Nat :=
  (20093 * 86400 + 86399 - 8 * 3600) * 1000000 + 999000

/-- A pending assignment due Sunday 2025-01-05 at 23:59:59.999 Manila,
the boundary instant named by the specification's `week` window. -/
def dueSundayLastMillisecond : FilterAssignment :=
  { title := "Due Sunday 23:59:59.999"
    due := .parsed sundayLastMillisecondUtc
    status := some "pending"
    is_submitted := false }

/-- A pending assignment due 14:00 Manila on 2025-01-01. -/
def pendingWednesday : FilterAssignment :=
  { title := "Problem set"
    due := .parsed ((20089 * 86400 + 14 * 3600 - 8 * 3600) * 1000000)
    status := some "pending"
    is_submitted := false }

/-- A pending assignment due exactly at the upcoming Sunday's
23:59:59.000000 Manila, the last instant the `week` window accepts. -/
def dueSundayLastSecond : FilterAssignment :=
  { title := "Due Sunday 23:59:59"
    due := .parsed ((20093 * 86400 + 86399 - 8 * 3600) * 1000000)
    status := some "pending"
    is_submitted := false }

/-- A session mid task-creation: the state slot names the title
sub-dialog and a draft title is already stored in `user_sessions`. -/
def sessionWithDraft : Session :=
  { state := some "waiting_for_task_title"
    task_title := some "Old draft"
    task_date := none }

/-- A gateway-produced assignment dict (int id, course code and
submission flag present), as `CanvasAPIClient.get_assignments` emits. -/
def fetchedExample : AssignmentDict :=
  { id := some (.int 5)
    title := some "Reading response"
    course_name := some "Intro CS"
    course_code := some "CS101"
    due_date := some "2025-01-03T15:59:00Z"
    description := some "Respond to chapter 2"
    points_possible := some 10
    html_url := some "https://canvas.example/assignments/5"
    is_submitted := some true
    workflow_state := some "submitted"
    status := none }

/-- A cached `tasks` row for user `"u"`, giving that user a non-empty
assignment cache. -/
def cachedRowExample : TaskRow :=
  { facebook_id := "u"
    title := some "Reading response"
    due_date := some "2025-01-03T15:59:00Z"
    status := "pending"
    task_type := "canvas"
    priority := "medium"
    canvas_assignment_id := "5"
    course_name := some "Intro CS"
    description := some "Respond to chapter 2"
    canvas_points_possible := some 10
    canvas_html_url := some "https://canvas.example/assignments/5" }

/-- A database in which user `"u"` has one cached Canvas assignment. -/
def dbWithCache : Db :=
  { tasks := [cachedRowExample], canvas_sync_log := [] }

/-! ## Characterizations of the filter's keep decision -/

/-- Membership in the `week` bucket's keep decision: a parsed due date,
no completed status, and the Manila due instant between local midnight
of today and `weekEnd`. -/
theorem keepAssignment_week_iff (now : Nat) (a : FilterAssignment) :
    keepAssignment now "week" a = true ↔
      ∃ t, a.due = .parsed t ∧ hasCompletedStatus a = false ∧
        todayStart now ≤ convert_to_manila_time t ∧
        convert_to_manila_time t ≤ weekEnd now := by
  cases h : a.due <;> simp [keepAssignment, h]

/-- Membership in the `all` bucket's keep decision. -/
theorem keepAssignment_all_iff (now : Nat) (a : FilterAssignment) :
    keepAssignment now "all" a = true ↔
      ∃ t, a.due = .parsed t ∧ hasCompletedStatus a = false ∧
        todayStart now ≤ convert_to_manila_time t := by
  cases h : a.due <;> simp [keepAssignment, h]

/-- Membership in the `overdue` bucket's keep decision. -/
theorem keepAssignment_overdue_iff (now : Nat) (a : FilterAssignment) :
    keepAssignment now "overdue" a = true ↔
      ∃ t, a.due = .parsed t ∧ hasCompletedStatus a = false ∧
        convert_to_manila_time t < todayStart now := by
  cases h : a.due <;> simp [keepAssignment, h]

/-! ## Claim C1 -/

/-- Claim C1 counterexample: an assignment whose Canvas
completion/submission flag `is_submitted` is `True` (and whose dict has
no `status` key, exactly as the cache read-back produces) is returned
by the `today` bucket, so the filter's output can contain an assignment
whose completion/submission flag is true. -/
theorem claim_C1_counterexample :
    filter_assignments_by_date [submittedToday] "today" nowWednesdayNoon
        = [submittedToday] ∧
      submittedToday.is_submitted = true := by
  decide

/-- Claim C1, amended: for every assignment list and every bucket, the
filter's output never contains an assignment whose due-timestamp is
missing (or unparseable), and never one whose `status` string is
`completed`/`done`/`finished`/`submitted`; the `is_submitted` boolean
is not consulted at all, so flipping it never changes the keep
decision. -/
theorem claim_C1_amended :
    (∀ (l : List FilterAssignment) (ft : String) (now : Nat)
       (a : FilterAssignment), a ∈ filter_assignments_by_date l ft now →
         (∃ t, a.due = .parsed t) ∧ hasCompletedStatus a = false) ∧
    (∀ (now : Nat) (ft : String) (a : FilterAssignment) (b : Bool),
       keepAssignment now ft { a with is_submitted := b }
         = keepAssignment now ft a) := by
  constructor
  · intro l ft now a ha
    rw [filter_assignments_by_date, List.mem_filter] at ha
    obtain ⟨-, hk⟩ := ha
    cases hd : a.due with
    | missing => simp [keepAssignment, hd] at hk
    | unparseable => simp [keepAssignment, hd] at hk
    | parsed t =>
      refine ⟨⟨t, rfl⟩, ?_⟩
      cases hc : hasCompletedStatus a with
      | false => rfl
      | true => simp [keepAssignment, hd, hc] at hk
  · intro now ft a b
    cases a
    rfl

/-- Witness for the amended claim C1 at a concrete input: the pending
Wednesday assignment passes the `today` bucket, and the theorem yields
its parsed due date and non-completed status. -/
theorem claim_C1_amended_witness :
    (∃ t, pendingWednesday.due = .parsed t) ∧
      hasCompletedStatus pendingWednesday = false :=
  claim_C1_amended.1 [pendingWednesday] "today" nowWednesdayNoon
    pendingWednesday (by decide)

/-! ## Claim C4 -/

/-- Claim C4 counterexample: at Wednesday noon Manila, an uncompleted
assignment due at 23:59:59.999 Manila on the upcoming Sunday (the
instant is on weekday 6, its local midnight is today's midnight plus
`daysUntilSunday` days, and it sits 999 milliseconds after 23:59:59) is
excluded from the `week` bucket, refuting the claimed closed upper
bound of 23:59:59.999 local on that Sunday. -/
theorem claim_C4_counterexample :
    manilaWeekday (convert_to_manila_time sundayLastMillisecondUtc) = 6 ∧
    todayStart (convert_to_manila_time sundayLastMillisecondUtc)
      = todayStart nowWednesdayNoon
          + daysUntilSunday nowWednesdayNoon * usPerDay ∧
    convert_to_manila_time sundayLastMillisecondUtc
      = todayStart (convert_to_manila_time sundayLastMillisecondUtc)
          + 86399 * usPerSec + 999000 ∧
    hasCompletedStatus dueSundayLastMillisecond = false ∧
    filter_assignments_by_date [dueSundayLastMillisecond] "week"
        nowWednesdayNoon = [] := by
  decide

/-- Claim C4, amended: the `week` bucket contains exactly the
non-excluded assignments whose due-timestamp, converted to Manila time,
lies in the closed interval from local midnight of the current local
date through 23:59:59.000000 local time of the upcoming Sunday
(anchored at today); sub-second instants beyond 23:59:59 on that Sunday
fall outside the interval. -/
theorem claim_C4_amended (l : List FilterAssignment) (now : Nat)
    (a : FilterAssignment) (t : Nat) (hd : a.due = .parsed t)
    (hc : hasCompletedStatus a = false) :
    a ∈ filter_assignments_by_date l "week" now ↔
      a ∈ l ∧ todayStart now ≤ convert_to_manila_time t ∧
        convert_to_manila_time t
          ≤ todayStart now + daysUntilSunday now * usPerDay
              + 86399 * usPerSec := by
  rw [filter_assignments_by_date, List.mem_filter, keepAssignment_week_iff]
  constructor
  · rintro ⟨hl, t', ht', -, h1, h2⟩
    rw [hd] at ht'
    cases ht'
    exact ⟨hl, h1, h2⟩
  · rintro ⟨hl, h1, h2⟩
    exact ⟨hl, t, hd, hc, h1, h2⟩

/-- Witness for the amended claim C4: the assignment due at exactly
23:59:59 Manila on the boundary Sunday is included in `week` (the
claim's stated edge case). -/
theorem claim_C4_amended_witness :
    dueSundayLastSecond ∈
      filter_assignments_by_date [dueSundayLastSecond] "week"
        nowWednesdayNoon :=
  (claim_C4_amended [dueSundayLastSecond] nowWednesdayNoon
      dueSundayLastSecond ((20093 * 86400 + 86399 - 8 * 3600) * 1000000)
      rfl (by decide)).mpr
    ⟨by decide, by decide, by decide⟩

/-! ## Claim C5 -/

/-- Claim C5: for every assignment list and call time, the `week`
bucket is a subset of the `all` bucket and disjoint from the `overdue`
bucket. -/
theorem claim_C5 (l : List FilterAssignment) (now : Nat)
    (a : FilterAssignment) :
    (a ∈ filter_assignments_by_date l "week" now →
      a ∈ filter_assignments_by_date l "all" now) ∧
    ¬(a ∈ filter_assignments_by_date l "week" now ∧
      a ∈ filter_assignments_by_date l "overdue" now) := by
  constructor
  · intro h
    rw [filter_assignments_by_date, List.mem_filter] at h ⊢
    obtain ⟨hl, hk⟩ := h
    rw [keepAssignment_week_iff] at hk
    obtain ⟨t, hd, hc, h1, -⟩ := hk
    exact ⟨hl, (keepAssignment_all_iff now a).mpr ⟨t, hd, hc, h1⟩⟩
  · rintro ⟨hw, ho⟩
    rw [filter_assignments_by_date, List.mem_filter,
      keepAssignment_week_iff] at hw
    rw [filter_assignments_by_date, List.mem_filter,
      keepAssignment_overdue_iff] at ho
    obtain ⟨-, t, hd, -, h1, -⟩ := hw
    obtain ⟨-, t', hd', -, h2⟩ := ho
    rw [hd] at hd'
    cases hd'
    omega

/-- Witness for claim C5: the pending Wednesday assignment is in the
`week` bucket at Wednesday noon, hence the theorem places it in the
`all` bucket. -/
theorem claim_C5_witness :
    pendingWednesday ∈
      filter_assignments_by_date [pendingWednesday] "all" nowWednesdayNoon :=
  (claim_C5 [pendingWednesday] nowWednesdayNoon pendingWednesday).1
    (by decide)

/-! ## Claim C6 -/

/-- Claim C6: with stored state `waiting_for_token`, any free text —
`"help"` included — is routed to the token-input handler regardless of
the memory fallback, the text and the new-user check; and in general a
stored sub-dialog state (with the in-memory mirror absent or agreeing,
as `set_user_state` maintains) routes to that sub-dialog's handler
before the greeting-keyword or new-user branch is reached. -/
theorem claim_C6 :
    (∀ (mem : Option String) (text : String) (isNew : Bool),
       handle_message_route (some "waiting_for_token") mem text isNew
         = .tokenInput) ∧
    (∀ (tag : String) (mem : Option String) (text : String) (isNew : Bool),
       tag ∈ subDialogStates → (mem = none ∨ mem = some tag) →
       handle_message_route (some tag) mem text isNew = subDialogRoute tag) := by
  constructor
  · intro mem text isNew
    simp [handle_message_route, isWaitingFor]
  · intro tag mem text isNew htag hmem
    simp only [subDialogStates, List.mem_cons, List.not_mem_nil, or_false] at htag
    rcases htag with rfl | rfl | rfl | rfl <;>
      rcases hmem with rfl | rfl <;>
        simp [handle_message_route, isWaitingFor, subDialogRoute]

/-- Witness for claim C6: the text `"help"` sent while both stores say
`waiting_for_token` reaches the token handler, not the greeting/menu
handler; and `"menu"` sent to a new user mid title sub-dialog reaches
the title handler. -/
theorem claim_C6_witness :
    handle_message_route (some "waiting_for_token")
        (some "waiting_for_token") "help" false = .tokenInput ∧
      handle_message_route (some "waiting_for_task_title") none "menu" true
        = subDialogRoute "waiting_for_task_title" :=
  ⟨claim_C6.1 (some "waiting_for_token") "help" false,
   claim_C6.2 "waiting_for_task_title" none "menu" true (by decide)
     (Or.inl rfl)⟩

/-! ## Claim C7 -/

/-- Claim C7 counterexample: cancelling from `waiting_for_task_title`
with a draft title already in `user_sessions` clears the state slot but
leaves the draft title stored — `clear_user_state` deletes only the
`state` key, so the in-progress DraftTask data is not discarded. -/
theorem claim_C7_counterexample :
    handle_task_title_input sessionWithDraft "cancel"
        = ({ state := none, task_title := some "Old draft",
             task_date := none }, .cancelled) ∧
      (handle_task_title_input sessionWithDraft "cancel").1.task_title
        ≠ none := by
  decide

/-- Claim C7, amended: in the `waiting_for_task_title` sub-dialog each
cancel keyword (`cancel`, `back`, `menu`, `stop`) is honoured before
any content validation of the input and clears the conversation state
back to none; the draft fields of `user_sessions` (`task_title`,
`task_date`) are left in place rather than discarded. -/
theorem claim_C7_amended (s : Session) (input : String)
    (h : cancelKeywords.contains (strLower (strStrip input)) = true) :
    handle_task_title_input s input = (clear_user_state s, .cancelled) := by
  have h' : strLower (strStrip input) ∈ cancelKeywords := by simpa using h
  simp [handle_task_title_input, h']

/-- Witness for the amended claim C7: `"stop"` cancels out of the
title sub-dialog, clearing the state and keeping the stored draft. -/
theorem claim_C7_amended_witness :
    handle_task_title_input sessionWithDraft "stop"
      = (clear_user_state sessionWithDraft, .cancelled) :=
  claim_C7_amended sessionWithDraft "stop" (by decide)

/-! ## Claim C8 -/

/-- Claim C8: an operation answering HTTP 503 on its first two attempts
and 200 on the third returns the successful payload after exactly two
delayed retries under the Canvas retry configuration (`retries=3`); the
retryable statuses are exactly 408, 429, 500, 502, 503 and 504; and a
request answering any other failing status is returned immediately
(`None`, no retry, zero delays). -/
theorem claim_C8 :
    (∀ (α : Type) (body : α),
       make_request (fun i => if i < 2 then 503 else 200) body
         = (.ok (some body), 2)) ∧
    (∀ s : Nat, is_retryable_http_error s = true ↔
       s ∈ [408, 429, 500, 502, 503, 504]) ∧
    (∀ (α : Type) (body : α) (s : Nat), s ≠ 200 →
       is_retryable_http_error s = false →
       make_request (fun _ => s) body = (.ok none, 0)) := by
  refine ⟨?_, ?_, ?_⟩
  · intro α body
    simp [make_request, exponential_backoff_retry, retryLoop,
      makeRequestAttempt, is_retryable_http_error]
  · intro s
    simp [is_retryable_http_error]
  · intro α body s h200 hnr
    rw [make_request, exponential_backoff_retry, retryLoop]
    simp [makeRequestAttempt, h200, hnr]

/-- Witness for claim C8: a 404 response is fatal — returned at once
with no retry. -/
theorem claim_C8_witness :
    make_request (fun _ => 404) "payload" = (.ok none, 0) :=
  claim_C8.2.2 String "payload" 404 (by decide) (by decide)

/-! ## Claim C9 -/

/-- Claim C9: token validation against any non-200 `users/self`
response — retryable statuses exhausting their retries included —
yields `valid = false` (the function is total, so no exception reaches
the caller); and the token-input handler, given any invalid validation
result on a non-cancel token, leaves the stored conversation state
exactly as it was, so a user in `waiting_for_token` stays there to
retry. -/
theorem claim_C9 :
    (∀ (status : Nat) (userData : String), status ≠ 200 →
       (validateTokenAtStatus status userData).valid = false) ∧
    (∀ (state : Option String) (token : String) (vr : ValidationResult),
       cancelKeywords.contains (strLower (strStrip token)) = false →
       vr.valid = false →
       handle_token_input_state state token vr = state) := by
  constructor
  · intro status userData h200
    by_cases hr : is_retryable_http_error status = true
    · simp [validateTokenAtStatus, make_request, exponential_backoff_retry,
        retryLoop, makeRequestAttempt, h200, hr, validate_token]
    · simp only [Bool.not_eq_true] at hr
      simp [validateTokenAtStatus, make_request, exponential_backoff_retry,
        retryLoop, makeRequestAttempt, h200, hr, validate_token]
  · intro state token vr hc hv
    have hc' : strLower (strStrip token) ∉ cancelKeywords := by
      simpa using hc
    simp [handle_token_input_state, hc', hv]

/-- Witness for claim C9: a 401 (unauthorized: malformed or expired
credential) validates to `valid = false`, and an invalid result on a
plausible token keeps the state at `waiting_for_token`. -/
theorem claim_C9_witness :
    (validateTokenAtStatus 401 "me").valid = false ∧
      handle_token_input_state (some "waiting_for_token")
          "1234~abcd1234efgh5678"
          { valid := false, user_info := none,
            error_message := some "Invalid token or Canvas server error" }
        = some "waiting_for_token" :=
  ⟨claim_C9.1 401 "me" (by decide),
   claim_C9.2 (some "waiting_for_token") "1234~abcd1234efgh5678"
     { valid := false, user_info := none,
       error_message := some "Invalid token or Canvas server error" }
     (by decide) rfl⟩

/-! ## Cache and synchronization lemmas -/

/-- When `cache_canvas_assignments` builds a row for an assignment,
the assignment's id was present and truthy and the row is the
`task_data` dict for it. -/
theorem rowForAssignment_eq_some {fid : String} {a : AssignmentDict}
    {r : TaskRow} :
    rowForAssignment fid a = some r ↔
      ∃ i, a.id = some i ∧ idTruthy (some i) = true ∧
        r = taskRowOf fid a i := by
  unfold rowForAssignment
  cases hid : a.id with
  | none => simp
  | some w =>
    dsimp only
    by_cases ht : idTruthy (some w) = true
    · rw [if_pos ht]
      simp only [Option.some.injEq]
      constructor
      · intro h
        exact ⟨w, rfl, ht, h.symm⟩
      · rintro ⟨i, hi, -, rfl⟩
        cases hi
        rfl
    · rw [if_neg ht]
      constructor
      · intro h
        exact Option.noConfusion h
      · rintro ⟨i, hi, hti, -⟩
        cases hi
        exact absurd hti ht

/-- Membership after the cache round-trip: writing a fetched list with
`cache_canvas_assignments` and reading it back with
`get_cached_canvas_assignments` yields exactly the read-back views of
the written assignments whose id was present and truthy. -/
theorem cache_roundtrip_mem (fid : String) (l : List AssignmentDict)
    (db : Db) (v : AssignmentDict) :
    v ∈ get_cached_canvas_assignments fid
        (cache_canvas_assignments fid l db) ↔
      ∃ a i, a ∈ l ∧ a.id = some i ∧ idTruthy (some i) = true ∧
        v = assignmentOfRow (taskRowOf fid a i) := by
  have hf : ∀ r ∈ l.filterMap (rowForAssignment fid),
      isCanvasRowOf fid r = true := by
    intro r hr
    rw [List.mem_filterMap] at hr
    obtain ⟨a, -, ha⟩ := hr
    obtain ⟨i, -, -, rfl⟩ := rowForAssignment_eq_some.mp ha
    simp [isCanvasRowOf, taskRowOf]
  simp only [get_cached_canvas_assignments, cache_canvas_assignments,
    List.filter_append, List.filter_filter, Bool.and_not_self,
    List.filter_false, List.nil_append, List.filter_eq_self.mpr hf,
    List.mem_map, List.mem_mergeSort, List.mem_filterMap]
  constructor
  · rintro ⟨r, ⟨a, hal, har⟩, rfl⟩
    obtain ⟨i, hid, ht, rfl⟩ := rowForAssignment_eq_some.mp har
    exact ⟨a, i, hal, hid, ht, rfl⟩
  · rintro ⟨a, i, hal, hid, ht, rfl⟩
    exact ⟨taskRowOf fid a i,
      ⟨a, hal, rowForAssignment_eq_some.mpr ⟨i, hid, ht, rfl⟩⟩, rfl⟩

/-- The example cache database holds exactly one read-back assignment
for user `"u"`. -/
theorem get_cached_dbWithCache :
    get_cached_canvas_assignments "u" dbWithCache
      = [assignmentOfRow cachedRowExample] := by
  have hp : isCanvasRowOf "u" cachedRowExample = true := by decide
  rw [get_cached_canvas_assignments,
    show dbWithCache.tasks = [cachedRowExample] from rfl]
  simp only [List.filter_cons, hp, if_true, List.filter_nil,
    List.mergeSort_singleton, List.map_cons, List.map_nil]

/-! ## Claim C2 -/

/-- Claim C2: with a non-empty cache and `force_refresh=false`, each of
two successive `sync_canvas_assignments` calls returns the cached list
directly, leaves the database untouched and performs zero remote
fetches — so both results are identical and no remote call is made at
all (whatever either call's gateway would have answered). -/
theorem claim_C2 (fid : String) (db : Db)
    (f1 f2 : Except String (List AssignmentDict))
    (h : get_cached_canvas_assignments fid db ≠ []) :
    sync_canvas_assignments fid f1 false db
        = (get_cached_canvas_assignments fid db, db, 0) ∧
      sync_canvas_assignments fid f2 false
          (sync_canvas_assignments fid f1 false db).2.1
        = (get_cached_canvas_assignments fid db, db, 0) := by
  have he : (get_cached_canvas_assignments fid db).isEmpty = false :=
    List.isEmpty_eq_false.mpr h
  constructor
  · simp [sync_canvas_assignments, he]
  · simp [sync_canvas_assignments, he]

/-- Witness for claim C2 at the example database: the cache is served
with no remote call, whatever the gateway would have returned. -/
theorem claim_C2_witness :
    sync_canvas_assignments "u" (.ok []) false dbWithCache
      = (get_cached_canvas_assignments "u" dbWithCache, dbWithCache, 0) :=
  (claim_C2 "u" dbWithCache (.ok []) (.error "down")
    (by rw [get_cached_dbWithCache]; simp)).1

/-! ## Claim C3 -/

/-- Claim C3: when the gateway raises on a user with pre-existing
cached data, `sync_canvas_assignments` returns the pre-existing cached
data unchanged (in particular not an empty list), leaves the `tasks`
table untouched, and appends a sync-log record with status `failed`
carrying the exception text. -/
theorem claim_C3 (fid e : String) (db : Db)
    (h : get_cached_canvas_assignments fid db ≠ []) :
    (sync_canvas_assignments fid (.error e) true db).1
        = get_cached_canvas_assignments fid db ∧
      (sync_canvas_assignments fid (.error e) true db).1 ≠ [] ∧
      ((sync_canvas_assignments fid (.error e) true db).2.1).tasks
        = db.tasks ∧
      ((sync_canvas_assignments fid (.error e) true db).2.1).canvas_sync_log
        = db.canvas_sync_log ++
            [{ facebook_id := fid, sync_type := "full", status := "failed",
               assignments_fetched := 0, error_message := some e }] := by
  have hred : sync_canvas_assignments fid (.error e) true db
      = (get_cached_canvas_assignments fid
           (log_canvas_sync fid "full" "failed" 0 (some e) db),
         log_canvas_sync fid "full" "failed" 0 (some e) db, 1) := by
    simp [sync_canvas_assignments, syncFetchPath]
  have hsame : get_cached_canvas_assignments fid
      (log_canvas_sync fid "full" "failed" 0 (some e) db)
      = get_cached_canvas_assignments fid db := rfl
  refine ⟨?_, ?_, ?_, ?_⟩
  · rw [hred]; exact hsame
  · rw [hred]; rw [show (get_cached_canvas_assignments fid
      (log_canvas_sync fid "full" "failed" 0 (some e) db),
      log_canvas_sync fid "full" "failed" 0 (some e) db, (1 : Nat)).1
      = get_cached_canvas_assignments fid db from hsame]; exact h
  · rw [hred]; rfl
  · rw [hred]; rfl

/-- Witness for claim C3 at the example database with a concrete
exception. -/
theorem claim_C3_witness :
    (sync_canvas_assignments "u" (.error "connection reset") true
        dbWithCache).1
      = get_cached_canvas_assignments "u" dbWithCache ∧
    ((sync_canvas_assignments "u" (.error "connection reset") true
        dbWithCache).2.1).canvas_sync_log
      = [{ facebook_id := "u", sync_type := "full", status := "failed",
           assignments_fetched := 0,
           error_message := some "connection reset" }] := by
  have h := claim_C3 "u" "connection reset" dbWithCache
    (by rw [get_cached_dbWithCache]; simp)
  exact ⟨h.1, by rw [h.2.2.2]; rfl⟩

/-! ## Claim C10 -/

/-- Claim C10: the cache round-trip is not the identity — every
read-back record is the view of a written assignment whose id was
present and truthy (assignments with a missing id are dropped), every
read-back record has no `is_submitted` key and no course code, and
writing then reading a gateway-produced list (which carries both)
therefore does not return the list that was written. -/
theorem claim_C10 (fid : String) (l : List AssignmentDict) (db : Db) :
    (∀ v ∈ get_cached_canvas_assignments fid
        (cache_canvas_assignments fid l db),
       v.is_submitted = none ∧ v.course_code = none) ∧
    (∀ v, v ∈ get_cached_canvas_assignments fid
        (cache_canvas_assignments fid l db) ↔
       ∃ a i, a ∈ l ∧ a.id = some i ∧ idTruthy (some i) = true ∧
         v = assignmentOfRow (taskRowOf fid a i)) ∧
    get_cached_canvas_assignments "u"
        (cache_canvas_assignments "u" [fetchedExample]
          { tasks := [], canvas_sync_log := [] })
      ≠ [fetchedExample] := by
  refine ⟨?_, fun v => cache_roundtrip_mem fid l db v, ?_⟩
  · intro v hv
    obtain ⟨a, i, -, -, -, rfl⟩ := (cache_roundtrip_mem fid l db v).mp hv
    exact ⟨rfl, rfl⟩
  · intro heq
    have hmem : fetchedExample ∈ get_cached_canvas_assignments "u"
        (cache_canvas_assignments "u" [fetchedExample]
          { tasks := [], canvas_sync_log := [] }) := by
      rw [heq]; exact List.mem_singleton.mpr rfl
    obtain ⟨a, i, -, -, -, hview⟩ :=
      (cache_roundtrip_mem "u" [fetchedExample]
        { tasks := [], canvas_sync_log := [] } fetchedExample).mp hmem
    have hsub := congrArg AssignmentDict.is_submitted hview
    simp [fetchedExample, assignmentOfRow] at hsub

/-- Witness for claim C10: the round-trip view of the example fetched
assignment is in the read-back list, and the theorem reports it carries
no submission flag and no course code. -/
theorem claim_C10_witness :
    (assignmentOfRow (taskRowOf "u" fetchedExample (.int 5))).is_submitted
        = none ∧
      (assignmentOfRow (taskRowOf "u" fetchedExample (.int 5))).course_code
        = none :=
  (claim_C10 "u" [fetchedExample] { tasks := [], canvas_sync_log := [] }).1
    (assignmentOfRow (taskRowOf "u" fetchedExample (.int 5)))
    (((claim_C10 "u" [fetchedExample]
          { tasks := [], canvas_sync_log := [] }).2.1
        (assignmentOfRow (taskRowOf "u" fetchedExample (.int 5)))).mpr
      ⟨fetchedExample, .int 5, List.mem_singleton.mpr rfl, rfl,
        by decide, rfl⟩)

end EaselyBot
